import Mathlib

/-!
Verification of the cosmetics question-answering pipeline
(backend/utilities/sql_validator.py, backend/agents/intent_agent.py,
backend/agents/response_generator.py, backend/agents/workflow.py,
backend/main.py), shallowly embedded in Lean.

External collaborators (the Ollama text generator, the Pinecone vector
index, the SQLite engine, JSON parsing of model output) are modelled as
oracle values; everything else is translated from the Python source.
Character classes follow Python regex semantics restricted to ASCII,
which covers every string handled by this repository.
-/

namespace CosmeticsPipeline

/-! ### Character and string helpers (Python `str`/`re` semantics, ASCII) -/

/-- Python default `str.strip` whitespace characters (also regex class
backslash-s for ASCII input). -/
def isPyWs (c : Char) : Bool :=
  c == ' ' || c == '\t' || c == '\n' || c == '\r' || c == '\x0b' || c == '\x0c'

/-- Regex word character class backslash-w for ASCII input. -/
def isWordChar (c : Char) : Bool :=
  c.isAlphanum || c == '_'

/-- Python `str.strip()` on a character list. -/
def pyStrip (s : List Char) : List Char :=
  ((s.dropWhile isPyWs).reverse.dropWhile isPyWs).reverse

/-- Python `str.upper()` for ASCII input. -/
def upperChars (s : List Char) : List Char :=
  s.map Char.toUpper

/-- Python `str.lower()` for ASCII input. -/
def lowerChars (s : List Char) : List Char :=
  s.map Char.toLower

/-- Python `str.lower()` on a `String`. -/
def lowerStr (s : String) : String :=
  String.mk (lowerChars s.data)

/-! ### Decimal rendering of naturals (Python `str(n)` / f-string formatting)

Structural (fuel-based) so that concrete evaluations reduce in the kernel;
the fuel `n + 1` always suffices because the argument is divided by ten on
every step. -/

/-- The digit character for `d` (used with `d < 10`). -/
def decChar (d : Nat) : Char :=
  Char.ofNat (48 + d)

/-- Accumulator loop of decimal rendering, most significant digit first. -/
def decCore : Nat → Nat → List Char → List Char
  | 0, _, acc => acc
  | fuel + 1, n, acc =>
    if n < 10 then decChar (n % 10) :: acc
    else decCore fuel (n / 10) (decChar (n % 10) :: acc)

/-- Decimal digit list of `n`, e.g. `dec 12 = ['1', '2']`. -/
def dec (n : Nat) : List Char :=
  decCore (n + 1) n []

/-- Python `str(n)` for a natural number. -/
def decStr (n : Nat) : String :=
  String.mk (dec n)

/-- Numeric value of a digit character. -/
def digitVal (c : Char) : Nat :=
  c.toNat - 48

/-- Parse a big-endian digit list back to a natural number
(left inverse of `dec`, used only to prove injectivity). -/
def decVal (l : List Char) : Nat :=
  l.foldl (fun acc c => acc * 10 + digitVal c) 0

/-! ### The Query Safety Filter: `SQLValidator.validate_query`

Rejection reasons mirror the distinct error messages of the source; the
dangerous-keyword and injection-pattern reasons carry which keyword or
pattern fired. -/

/-- Source `SQLValidator.ALLOWED_TABLES` (a Python set; only membership is used). -/
def allowedTables : List String :=
  ["products", "ingredients", "product_ingredients", "companies",
   "brands", "categories", "cosmetics", "chemicals"]

/-- Source `SQLValidator.DANGEROUS_KEYWORDS`. The source iterates a Python set
whose order is unspecified; the model fixes the literal order, which only
affects which keyword is reported when several occur. -/
def dangerousKeywords : List String :=
  ["DROP", "DELETE", "TRUNCATE", "ALTER", "INSERT", "UPDATE",
   "EXEC", "EXECUTE", "CREATE", "GRANT", "REVOKE"]

/-- The injection-pattern regexes of `validate_query`, in source order. -/
inductive InjPattern where
  | quoteSemicolon
  | lineComment
  | blockComment
  | xpProc
  | spProc
  | unionSelectPat
deriving DecidableEq

/-- One rejection reason per distinct early return of `validate_query`. -/
inductive RejectReason where
  | emptyQuery
  | notSelect
  | dangerousKeyword (kw : String)
  | injection (p : InjPattern)
  | tableNotAllowed (t : String)
  | tooLong
deriving DecidableEq

/-- Regex `^\s*SELECT\b` (IGNORECASE) matched against the query. -/
def startsWithSelectKw (s : List Char) : Bool :=
  let t := s.dropWhile isPyWs
  upperChars (t.take 6) == "SELECT".data &&
    (match t.drop 6 with
     | [] => true
     | c :: _ => !isWordChar c)

/-- Whether the word `kw` matches at the start of `s`, where `prev` is the
character just before `s` (regex word boundaries on both sides). -/
def wordMatchAt (kw : List Char) (prev : Option Char) (s : List Char) : Bool :=
  (match prev with
   | none => true
   | some c => !isWordChar c) &&
  kw.isPrefixOf s &&
  (match s.drop kw.length with
   | [] => true
   | c :: _ => !isWordChar c)

/-- Scan of `s` for a whole-word occurrence of `kw`, tracking the previous
character for the left word boundary. -/
def wordOccursAux (kw : List Char) (prev : Option Char) : List Char → Bool
  | [] => wordMatchAt kw prev []
  | c :: rest => wordMatchAt kw prev (c :: rest) || wordOccursAux kw (some c) rest

/-- Regex search for `\bKW\b` in `s`. -/
def wordOccurs (kw s : List Char) : Bool :=
  wordOccursAux kw none s

/-- The dangerous-keyword loop of `validate_query`, run on the uppercased
query: first keyword that occurs as a whole word, if any. -/
def findDangerous (upper : List Char) : Option String :=
  dangerousKeywords.find? (fun kw => wordOccurs kw.data upper)

/-- Substring search (regex with no metacharacters). -/
def containsSeq (pat : List Char) : List Char → Bool
  | [] => pat.isPrefixOf []
  | c :: rest => pat.isPrefixOf (c :: rest) || containsSeq pat rest

/-- Regex: a quote character (single or double), optional whitespace,
then a semicolon (the first injection pattern of the source). -/
def quoteThenSemi : List Char → Bool
  | [] => false
  | c :: rest =>
    ((c == '\x27' || c == '"') &&
      (match rest.dropWhile isPyWs with
       | ';' :: _ => true
       | _ => false)) || quoteThenSemi rest

/-- Regex `--\s*\n`: two dashes, then a newline within the following
whitespace run (the newline itself is a whitespace character). -/
def dashDashComment : List Char → Bool
  | [] => false
  | c :: rest =>
    (c == '-' &&
      (match rest with
       | c2 :: rest2 => c2 == '-' && (rest2.takeWhile isPyWs).contains '\n'
       | [] => false)) || dashDashComment rest

/-- Regex `UNION\s+SELECT` (IGNORECASE) matched at the start of `s`. -/
def unionSelectAt (s : List Char) : Bool :=
  upperChars (s.take 5) == "UNION".data &&
  (let after := s.drop 5
   !(after.takeWhile isPyWs).isEmpty &&
     upperChars ((after.dropWhile isPyWs).take 6) == "SELECT".data)

/-- Regex search for `UNION\s+SELECT` (IGNORECASE). -/
def unionSelect : List Char → Bool
  | [] => false
  | c :: rest => unionSelectAt (c :: rest) || unionSelect rest

/-- The injection-pattern loop of `validate_query`, in source order:
first pattern that matches somewhere in the query, if any. -/
def findInjection (q : List Char) : Option InjPattern :=
  if quoteThenSemi q then some .quoteSemicolon
  else if dashDashComment q then some .lineComment
  else if containsSeq ['/', '*'] q then some .blockComment
  else if containsSeq ['x', 'p', '_'] (lowerChars q) then some .xpProc
  else if containsSeq ['s', 'p', '_'] (lowerChars q) then some .spProc
  else if unionSelect q then some .unionSelectPat
  else none

/-- One scanning step for the findall of the table-name capture pattern:
fuelled by the string length (each step consumes at least one character,
so the fuel never runs out). `prev` is the character before the current
position, for the word boundary before `KW`. -/
def findKwTablesAux (kw : List Char) : Nat → Option Char → List Char → List String
  | 0, _, _ => []
  | _ + 1, _, [] => []
  | fuel + 1, prev, c :: rest =>
    let s := c :: rest
    let boundaryOk : Bool :=
      match prev with
      | none => true
      | some p => !isWordChar p
    if boundaryOk && upperChars (s.take kw.length) == kw then
      let after := s.drop kw.length
      let ws := after.takeWhile isPyWs
      let word := (after.dropWhile isPyWs).takeWhile isWordChar
      if !ws.isEmpty && !word.isEmpty then
        String.mk word ::
          findKwTablesAux kw fuel (some (word.getLastD c))
            ((after.dropWhile isPyWs).drop word.length)
      else
        findKwTablesAux kw fuel (some c) rest
    else
      findKwTablesAux kw fuel (some c) rest

/-- Findall of the word-boundary KW, whitespace, word-capture pattern
(IGNORECASE) for an uppercase keyword `KW`: the captured words, left to
right, non-overlapping. -/
def findKwTables (kw : String) (q : List Char) : List String :=
  findKwTablesAux kw.data q.length none q

/-- The table names the source checks: findall of the FROM-then-word
capture pattern on the query. -/
def fromTables (q : List Char) : List String :=
  findKwTables "FROM" q

/-- Table names referenced after `JOIN`. The source never computes these;
the definition follows the words of the specification (rule (e): every
referenced table) and is used only to state claims about `JOIN` references. -/
def joinReferencedTables (q : List Char) : List String :=
  findKwTables "JOIN" q

/-- Source `SQLValidator.validate_query` (also `validate_sql_before_execution`,
which just delegates to it): `none` means the query is accepted, `some r`
is the rejection with reason `r`. Rules run in source order: non-empty,
SELECT-start, dangerous keywords, injection patterns, table allow-list,
length ceiling. -/
def validateQuery (sql : String) : Option RejectReason :=
  if sql.data.isEmpty then some .emptyQuery
  else
    let q := pyStrip sql.data
    if !startsWithSelectKw q then some .notSelect
    else
      match findDangerous (upperChars q) with
      | some kw => some (.dangerousKeyword kw)
      | none =>
        match findInjection q with
        | some p => some (.injection p)
        | none =>
          match (fromTables q).find?
              (fun t => !(allowedTables.contains (lowerStr t))) with
          | some t => some (.tableNotAllowed t)
          | none =>
            if q.length > 5000 then some .tooLong else none

/-! ### The Intent Classifier: `intent_agent`

The Ollama call, the brace-matching regex and `json.loads` are external;
their combined outcome is a `ClassifierOutcome`: `parsed d` when a JSON
object was extracted and parsed into a dictionary (with the fields the
source reads, each possibly absent), `unparseable` when anything raised —
this covers non-JSON output, a JSON value that is not an object, and a
failing model call, all of which land in the `except` branch. -/

/-- The fields of the parsed classifier dictionary that the source reads. -/
structure ParsedIntent where
  queryType : Option String
  entities : Option (List (String × List String))
  intentText : Option String

/-- Outcome of the classifier call plus JSON extraction. -/
inductive ClassifierOutcome where
  | parsed (d : ParsedIntent)
  | unparseable

/-- The intent dictionary returned by `intent_agent` (always carries the
three fields: the source fills each missing one in). -/
structure Intent where
  intentText : String
  entities : List (String × List String)
  queryType : String
deriving DecidableEq

/-- Keyword list of the missing-`query_type` default inside the `try`
branch of `intent_agent`. -/
def parsedFallbackKeywords : List String :=
  ["how many", "count", "total", "top", "most"]

/-- Keyword list of the `except`-branch default of `intent_agent`. -/
def exceptFallbackKeywords : List String :=
  ["how many", "count", "total", "top"]

/-- Python `any(word in user_question.lower() for word in kws)`. -/
def containsAnyKeyword (question : String) (kws : List String) : Bool :=
  kws.any (fun w => containsSeq w.data (lowerChars question.data))

/-- Source `intent_agent(user_question)`, given the classifier outcome. -/
def intentAgent (question : String) (out : ClassifierOutcome) : Intent :=
  match out with
  | .parsed d =>
    { queryType :=
        match d.queryType with
        | some t => t
        | none =>
          if containsAnyKeyword question parsedFallbackKeywords then "STRUCTURED"
          else "SEMANTIC"
      entities := d.entities.getD []
      intentText := d.intentText.getD question }
  | .unparseable =>
    { queryType :=
        if containsAnyKeyword question exceptFallbackKeywords then "STRUCTURED"
        else "SEMANTIC"
      entities := []
      intentText := question }

/-! ### Result caps and structured-row bookkeeping -/

/-- Source `config.MAX_SQL_RESULTS`. -/
def MAX_SQL_RESULTS : Nat := 6

/-- Source `config.MAX_SEMANTIC_RESULTS`. -/
def MAX_SEMANTIC_RESULTS : Nat := 5

/-- Source `main.query_cosmetics_db` clamps the request-scoped cap:
`min(limit_results, MAX_SQL_RESULTS)`. -/
def clampLimit (requested : Nat) : Nat :=
  min requested MAX_SQL_RESULTS

/-- Source `sql_node` truncation: `df_results.head(limit)` when the row count
exceeds the limit, else the rows unchanged. -/
def truncateRows {α : Type} (rows : List α) (limit : Nat) : List α :=
  if rows.length > limit then rows.take limit else rows

/-- A structured citation id: `f"sql-{i}"`. -/
def sqlCid (i : Nat) : String :=
  "sql-" ++ decStr i

/-- A semantic citation id as assigned by `semantic_search`: `f"sem-{i}"`. -/
def semCid (i : Nat) : String :=
  "sem-" ++ decStr i

/-- Source `sql_node` citation column: row at 0-based position `i` (starting from
`i0`) is paired with id `sql-(i+1)`. -/
def attachSqlCitations {α : Type} : Nat → List α → List (String × α)
  | _, [] => []
  | i, r :: rs => (sqlCid (i + 1), r) :: attachSqlCitations (i + 1) rs

/-- Source `semantic_search` row formatting, keeping what downstream reads: the
match at 1-based rank `i` carries citation id `sem-i` next to its payload
(`for i, match in enumerate(results.matches, 1)`). -/
def mkSemRowsFrom {α : Type} : Nat → List α → List (Option String × α)
  | _, [] => []
  | i, r :: rs => (some (semCid i), r) :: mkSemRowsFrom (i + 1) rs

/-! ### The Citation Indexer inside `response_generator`

`citation_map` is a Python dict built by insertion; inserting an existing
key overwrites the value in place and keeps the original position. The
final `citation_list` iterates the dict in that order. -/

/-- One entry of `citation_map` / `citation_list`. -/
structure Citation (α : Type) where
  cid : String
  ctype : String
  rowIndex : Nat
  citationNumber : Nat
  rowData : α
deriving DecidableEq

/-- Python dict insertion `m[cid] = e`: overwrite in place if the key
exists, else append. -/
def dictInsert {α : Type} (m : List (Citation α)) (e : Citation α) : List (Citation α) :=
  if m.any (fun x => x.cid == e.cid) then
    m.map (fun x => if x.cid == e.cid then e else x)
  else m ++ [e]

/-- Pending entry before its citation number is known:
(citation id, type, 1-based row index, record). -/
def PendingCitation (α : Type) : Type :=
  String × String × Nat × α

/-- Insert a run of entries, numbering them with the running
`citation_counter` (incremented on every insertion, source lines of both
`for idx, row in df.iterrows()` loops). -/
def insertAll {α : Type} (m : List (Citation α)) (counter : Nat) :
    List (PendingCitation α) → List (Citation α) × Nat
  | [] => (m, counter)
  | (cid, t, ri, r) :: rest =>
    insertAll (dictInsert m ⟨cid, t, ri, counter, r⟩) (counter + 1) rest

/-- The structured loop of `response_generator`: row at 0-based index `i`
yields key `sql-(i+1)`, type `sql`, row index `i+1`. -/
def sqlPending {α : Type} : Nat → List α → List (PendingCitation α)
  | _, [] => []
  | i, r :: rs => (sqlCid (i + 1), "sql", i + 1, r) :: sqlPending (i + 1) rs

/-- The semantic loop of `response_generator`: the row citation id if the
row carries one, else `sem-(i+1)`; type `semantic`, row index `i+1`. -/
def semPending {α : Type} : Nat → List (Option String × α) → List (PendingCitation α)
  | _, [] => []
  | i, (cido, r) :: rs =>
    (cido.getD (semCid (i + 1)), "semantic", i + 1, r) :: semPending (i + 1) rs

/-- The citation table built by `response_generator`: structured rows
first, then semantic rows, `citation_counter` starting at 1. -/
def buildCitationMap {α : Type} (sqlRows : List α)
    (semRows : List (Option String × α)) : List (Citation α) :=
  let afterSql := insertAll [] 1 (sqlPending 0 sqlRows)
  (insertAll afterSql.1 afterSql.2 (semPending 0 semRows)).1

/-- The fixed not-found answer of `response_generator`. -/
def notFoundMessage : String :=
  "No products or data found matching your criteria. Try rephrasing your question or using different search terms."

/-- Source `response_generator(user_question, results, ...)`. `genOut` is the
outcome of the Ollama text-generation call (consulted only when it is
issued); the Boolean in the result records whether that call was issued.
An exception from the call propagates (there is no try/except here). -/
def responseGenerator {α : Type} (genOut : Except String String)
    (sqlRows : List α) (semRows : List (Option String × α)) :
    Except String (String × List (Citation α) × Bool) :=
  let m := buildCitationMap sqlRows semRows
  if m.length == 0 then .ok (notFoundMessage, [], false)
  else
    match genOut with
    | .ok text => .ok (text, m, true)
    | .error e => .error e

/-! ### The Orchestrator: `build_workflow` in `workflow.py`

External calls are oracle values in `Oracles`; `RunLog` records, as
observations of one run, the node names in execution order and the query
strings handed to `cursor.execute`. -/

/-- Outcomes of the external calls made during one request. -/
structure Oracles (α β : Type) where
  classifierOutcome : ClassifierOutcome
  genSql : Except String String
  execSql : String → Except String (List α)
  semanticSearch : Nat → Except String (List β)
  generate : Except String String

/-- The fields of `AgentState` the claims read. `intent_analysis` always
carries `query_type` because `intent_agent` fills it in on every path. -/
structure AgentState (α β : Type) where
  userQuestion : String
  intentAnalysis : Intent
  sqlResults : Option (List α)
  semResults : Option (List (Option String × β))
  sqlQuery : Option String
  finalResponse : String
  citations : List (Citation (α ⊕ β))
  messages : List String

/-- Observations of one workflow run: nodes visited in order, and every
SQL string passed to `cursor.execute`. -/
structure RunLog where
  visited : List String
  executed : List String

/-- The initial state built by `query_cosmetics_db` (empty dict for the
intent; every result slot `None`/empty). -/
def initState {α β : Type} (question : String) : AgentState α β :=
  { userQuestion := question
    intentAnalysis := { intentText := "", entities := [], queryType := "" }
    sqlResults := none
    semResults := none
    sqlQuery := none
    finalResponse := ""
    citations := []
    messages := [] }

/-- Node `intent_node`: runs `intent_agent` and records the routing message. -/
def intentNode {α β : Type} (or : Oracles α β) (st : AgentState α β) :
    AgentState α β :=
  let ia := intentAgent st.userQuestion or.classifierOutcome
  { st with intentAnalysis := ia
            messages := st.messages ++ ["Intent analyzed: " ++ ia.queryType] }

/-- Edge `should_use_sql`: conditional edge out of the intent node. The source
reads `state["intent_analysis"].get("query_type", "SEMANTIC")`; the key is
always present (see `intentAgent`), so the argument is that value. -/
def shouldUseSql (queryType : String) : String :=
  if queryType == "STRUCTURED" || queryType == "COMBINED" then "sql"
  else "semantic"

/-- Edge `should_use_semantic`: conditional edge out of the sql node. -/
def shouldUseSemantic (queryType : String) : String :=
  if queryType == "COMBINED" then "semantic" else "response"

/-- Node `sql_node`: generates a query, executes it, truncates, and on any
exception substitutes an empty result and a diagnostic message. The second
component lists the queries handed to `cursor.execute` (the execute call
happens before its outcome is known, so a failing execution still appears). -/
def sqlNode {α β : Type} (or : Oracles α β) (lim : Nat) (st : AgentState α β) :
    AgentState α β × List String :=
  match or.genSql with
  | .error e =>
    ({ st with sqlResults := some []
               sqlQuery := none
               messages := st.messages ++ ["SQL error: " ++ e] }, [])
  | .ok q =>
    match or.execSql q with
    | .ok rows =>
      let df := truncateRows rows lim
      ({ st with sqlResults := some df
                 sqlQuery := some q
                 messages := st.messages ++
                   ["SQL executed: " ++ decStr df.length ++ " results"] }, [q])
    | .error e =>
      ({ st with sqlResults := some []
                 sqlQuery := none
                 messages := st.messages ++ ["SQL error: " ++ e] }, [q])

/-- Node `semantic_node`: vector search with `top_k = min(limit, MAX_SEMANTIC_RESULTS)`
(rows formatted by `semantic_search` with `sem-i` citation ids); on any
exception substitutes an empty result and a diagnostic message. -/
def semanticNode {α β : Type} (or : Oracles α β) (lim : Nat)
    (st : AgentState α β) : AgentState α β :=
  match or.semanticSearch (min lim MAX_SEMANTIC_RESULTS) with
  | .ok ms =>
    { st with semResults := some (mkSemRowsFrom 1 ms)
              messages := st.messages ++
                ["Semantic search: " ++ decStr ms.length ++ " results"] }
  | .error e =>
    { st with semResults := some []
              messages := st.messages ++ ["Semantic error: " ++ e] }

/-- Node `response_node`: assembles the results dict (a result set is included
only when present and non-empty) and calls `response_generator`. This node
has no try/except, so a generation failure propagates. -/
def responseNode {α β : Type} (or : Oracles α β) (st : AgentState α β) :
    Except String (AgentState α β) :=
  let sqlRows : List (α ⊕ β) :=
    match st.sqlResults with
    | some rs => if rs.length > 0 then rs.map Sum.inl else []
    | none => []
  let semRows : List (Option String × (α ⊕ β)) :=
    match st.semResults with
    | some rs => if rs.length > 0 then rs.map (fun p => (p.1, Sum.inr p.2)) else []
    | none => []
  match responseGenerator or.generate sqlRows semRows with
  | .ok (ans, cits, _) =>
    .ok { st with finalResponse := ans, citations := cits }
  | .error e => .error e

/-- The compiled workflow run on one request, mirroring the graph wiring:
entry `intent`, conditional edge (`should_use_sql`) to `sql` or `semantic`,
conditional edge (`should_use_semantic`) from `sql` to `semantic` or
`response`, fixed edges `semantic -> response -> END`. `lim` is the
request-scoped `limit_results` already clamped by `query_cosmetics_db`. -/
def runPipeline {α β : Type} (or : Oracles α β) (question : String) (lim : Nat) :
    RunLog × Except String (AgentState α β) :=
  let st1 := intentNode or (initState question)
  let qt := st1.intentAnalysis.queryType
  if shouldUseSql qt == "sql" then
    let stEx := sqlNode or lim st1
    if shouldUseSemantic qt == "semantic" then
      let st3 := semanticNode or lim stEx.1
      (⟨["intent", "sql", "semantic", "response"], stEx.2⟩, responseNode or st3)
    else
      (⟨["intent", "sql", "response"], stEx.2⟩, responseNode or stEx.1)
  else
    let st2 := semanticNode or lim st1
    (⟨["intent", "semantic", "response"], []⟩, responseNode or st2)

/-! ### Proof-side definitions and concrete fixtures -/

/-- Closed form of a run of fresh-key insertions: entry `k` of the run
receives citation number `c + k` (used to state what `insertAll` produces
when no key collides). -/
def numberPending {α : Type} : Nat → List (PendingCitation α) → List (Citation α)
  | _, [] => []
  | c, (cid, t, ri, r) :: rest => ⟨cid, t, ri, c, r⟩ :: numberPending (c + 1) rest

/-- The specification example query accepted by the Safety Filter
(section 8 of the spec; also example output of the SQL agent prompt). -/
def specExampleQuery : String :=
  "SELECT COUNT(DISTINCT CDPHId) FROM cosmetic_csv WHERE ChemicalName LIKE \x27%titanium dioxide%\x27"

/-- The mutating suffix of the specification example. -/
def dropSuffix : String :=
  "; DROP TABLE cosmetic_csv"

/-- A query over the single real table of this repository, in the shape
the SQL agent prompt instructs the model to produce. -/
def generatedCsvQuery : String :=
  "SELECT * FROM cosmetic_csv"

/-- A SELECT query whose JOIN references a table outside the allow-list
while its FROM table is allowed. -/
def joinQuery : String :=
  "SELECT ProductName FROM cosmetics JOIN secret_tbl ON cosmetics.CDPHId = secret_tbl.CDPHId"

/-- Oracle fixture: classifier says STRUCTURED, the SQL agent emits
`generatedCsvQuery`, execution succeeds with no rows. -/
def oraclesStructuredGen : Oracles Unit Unit :=
  { classifierOutcome := .parsed ⟨some "STRUCTURED", none, none⟩
    genSql := .ok generatedCsvQuery
    execSql := fun _ => .ok []
    semanticSearch := fun _ => .ok []
    generate := .ok "answer" }

/-- Oracle fixture: classifier says SEMANTIC, the vector search returns
one record, and the synthesis text-generation call raises. -/
def oraclesSynthesisFailure : Oracles Unit Unit :=
  { classifierOutcome := .parsed ⟨some "SEMANTIC", none, none⟩
    genSql := .ok ""
    execSql := fun _ => .ok []
    semanticSearch := fun _ => .ok [()]
    generate := .error "boom" }

/-- Oracle fixture: classifier says COMBINED, both retrieval stages fail,
synthesis succeeds. -/
def oraclesCombinedFail : Oracles Unit Unit :=
  { classifierOutcome := .parsed ⟨some "COMBINED", none, none⟩
    genSql := .ok "SELECT 1"
    execSql := fun _ => .error "db down"
    semanticSearch := fun _ => .error "index down"
    generate := .ok "ans" }

/-! ### Lemmas: decimal rendering is injective -/

theorem decCore_append (fuel : Nat) : ∀ (n : Nat) (acc : List Char),
    decCore fuel n acc = decCore fuel n [] ++ acc := by
  induction fuel with
  | zero => intro n acc; simp [decCore]
  | succ f ih =>
    intro n acc
    by_cases h : n < 10
    · simp [decCore, h]
    · simp only [decCore, if_neg h]
      rw [ih (n / 10) (decChar (n % 10) :: acc), ih (n / 10) [decChar (n % 10)]]
      simp

theorem digitVal_decChar (d : Nat) (h : d < 10) : digitVal (decChar d) = d := by
  interval_cases d <;> rfl

theorem decVal_append_singleton (l : List Char) (c : Char) :
    decVal (l ++ [c]) = decVal l * 10 + digitVal c := by
  simp [decVal, List.foldl_append]

theorem decVal_decCore : ∀ (fuel n : Nat), n < fuel →
    decVal (decCore fuel n []) = n := by
  intro fuel
  induction fuel with
  | zero => intro n h; omega
  | succ f ih =>
    intro n h
    by_cases h10 : n < 10
    · simp [decCore, h10, decVal]
      have := digitVal_decChar (n % 10) (Nat.mod_lt n (by omega))
      simp [digitVal] at this ⊢
      omega
    · have hdiv : n / 10 < n := Nat.div_lt_self (by omega) (by omega)
      have hf : n / 10 < f := by omega
      simp only [decCore, if_neg h10]
      rw [decCore_append]
      rw [decVal_append_singleton]
      rw [ih (n / 10) hf]
      have := digitVal_decChar (n % 10) (Nat.mod_lt n (by omega))
      rw [this]
      omega

theorem dec_injective : Function.Injective dec := by
  intro a b h
  have ha := decVal_decCore (a + 1) a (Nat.lt_succ_self a)
  have hb := decVal_decCore (b + 1) b (Nat.lt_succ_self b)
  rw [show decCore (a + 1) a [] = dec a from rfl] at ha
  rw [show decCore (b + 1) b [] = dec b from rfl] at hb
  rw [← ha, ← hb, h]

theorem decStr_injective : Function.Injective decStr := by
  intro a b h
  exact dec_injective (congrArg String.data h)

theorem sqlCid_data (i : Nat) : (sqlCid i).data = 's' :: 'q' :: 'l' :: '-' :: dec i := by
  simp [sqlCid, decStr, String.data_append]

theorem semCid_data (i : Nat) : (semCid i).data = 's' :: 'e' :: 'm' :: '-' :: dec i := by
  simp [semCid, decStr]

theorem sqlCid_injective : Function.Injective sqlCid := by
  intro a b h
  have := congrArg String.data h
  rw [sqlCid_data, sqlCid_data] at this
  exact dec_injective (by injection this with _ t; injection t with _ t; injection t with _ t; injection t)

theorem semCid_injective : Function.Injective semCid := by
  intro a b h
  have := congrArg String.data h
  rw [semCid_data, semCid_data] at this
  exact dec_injective (by injection this with _ t; injection t with _ t; injection t with _ t; injection t)

theorem sqlCid_ne_semCid (i j : Nat) : sqlCid i ≠ semCid j := by
  intro h
  have := congrArg String.data h
  rw [sqlCid_data, semCid_data] at this
  injection this with _ t
  injection t with hq _
  exact absurd hq (by decide)

/-! ### Lemmas: dict insertion with fresh keys appends -/

theorem dictInsert_fresh {α : Type} (m : List (Citation α)) (e : Citation α)
    (h : ∀ x ∈ m, x.cid ≠ e.cid) : dictInsert m e = m ++ [e] := by
  unfold dictInsert
  rw [if_neg]
  simp only [List.any_eq_true, beq_iff_eq, not_exists, not_and]
  intro x hx
  exact fun hc => h x hx hc

/-- Inserting a run of entries whose keys are fresh and pairwise distinct
appends them, numbered consecutively from the running counter. -/
theorem insertAll_fresh {α : Type} : ∀ (es : List (PendingCitation α))
    (m : List (Citation α)) (c : Nat),
    (es.map (fun e => e.1)).Nodup →
    (∀ k ∈ es.map (fun e => e.1), ∀ x ∈ m, x.cid ≠ k) →
    insertAll m c es = (m ++ numberPending c es, c + es.length) := by
  intro es
  induction es with
  | nil => intro m c _ _; simp [insertAll, numberPending]
  | cons e rest ih =>
    intro m c hnd hfresh
    obtain ⟨cid, t, ri, r⟩ := e
    simp only [insertAll]
    have hfr : ∀ x ∈ m, x.cid ≠ (⟨cid, t, ri, c, r⟩ : Citation α).cid := by
      intro x hx
      exact hfresh cid (by simp) x hx
    rw [dictInsert_fresh m _ hfr]
    have step := ih (m ++ [(⟨cid, t, ri, c, r⟩ : Citation α)]) (c + 1)
      (by simpa using hnd.of_cons)
      (by
        intro k hk x hx
        rcases List.mem_append.mp hx with hxm | hxe
        · exact hfresh k (by simp [hk]) x hxm
        · simp at hxe
          subst hxe
          simp only [List.map_cons] at hnd
          have := List.nodup_cons.mp hnd
          intro hck
          exact this.1 (by simpa [← hck] using hk))
    rw [step]
    simp [numberPending]
    omega

theorem numberPending_map_number {α : Type} : ∀ (es : List (PendingCitation α)) (c : Nat),
    (numberPending c es).map (fun x => x.citationNumber) = List.range' c es.length := by
  intro es
  induction es with
  | nil => intro c; simp [numberPending]
  | cons e rest ih =>
    intro c
    obtain ⟨cid, t, ri, r⟩ := e
    simp [numberPending, List.range'_succ, ih]

theorem numberPending_map_cid {α : Type} : ∀ (es : List (PendingCitation α)) (c : Nat),
    (numberPending c es).map (fun x => x.cid) = es.map (fun e => e.1) := by
  intro es
  induction es with
  | nil => intro c; simp [numberPending]
  | cons e rest ih =>
    intro c
    obtain ⟨cid, t, ri, r⟩ := e
    simp [numberPending, ih]

theorem numberPending_map_rowData {α : Type} : ∀ (es : List (PendingCitation α)) (c : Nat),
    (numberPending c es).map (fun x => x.rowData) = es.map (fun e => e.2.2.2) := by
  intro es
  induction es with
  | nil => intro c; simp [numberPending]
  | cons e rest ih =>
    intro c
    obtain ⟨cid, t, ri, r⟩ := e
    simp [numberPending, ih]

theorem sqlPending_map_key {α : Type} : ∀ (rows : List α) (i : Nat),
    (sqlPending i rows).map (fun e => e.1) = (List.range' (i + 1) rows.length).map sqlCid := by
  intro rows
  induction rows with
  | nil => intro i; simp [sqlPending]
  | cons r rest ih =>
    intro i
    simp [sqlPending, List.range'_succ, ih]

theorem sqlPending_map_payload {α : Type} : ∀ (rows : List α) (i : Nat),
    (sqlPending i rows).map (fun e => e.2.2.2) = rows := by
  intro rows
  induction rows with
  | nil => intro i; simp [sqlPending]
  | cons r rest ih =>
    intro i
    simp [sqlPending, ih]

theorem semPending_mkSemRows_map_key {α : Type} : ∀ (ps : List α) (i : Nat),
    (semPending i (mkSemRowsFrom (i + 1) ps)).map (fun e => e.1) =
      (List.range' (i + 1) ps.length).map semCid := by
  intro ps
  induction ps with
  | nil => intro i; simp [mkSemRowsFrom, semPending]
  | cons p rest ih =>
    intro i
    simp [mkSemRowsFrom, semPending, List.range'_succ, ih]

theorem semPending_mkSemRows_map_payload {α : Type} : ∀ (ps : List α) (i : Nat),
    (semPending i (mkSemRowsFrom (i + 1) ps)).map (fun e => e.2.2.2) = ps := by
  intro ps
  induction ps with
  | nil => intro i; simp [mkSemRowsFrom, semPending]
  | cons p rest ih =>
    intro i
    simp [mkSemRowsFrom, semPending, ih]

theorem sqlPending_length {α : Type} (rows : List α) (i : Nat) :
    (sqlPending i rows).length = rows.length := by
  have := congrArg List.length (sqlPending_map_payload rows i)
  simpa using this

theorem semPending_mkSemRows_length {α : Type} (ps : List α) (i : Nat) :
    (semPending i (mkSemRowsFrom (i + 1) ps)).length = ps.length := by
  have := congrArg List.length (semPending_mkSemRows_map_payload ps i)
  simpa using this

/-- Closed form of the citation table: structured entries numbered from 1,
then semantic entries numbered from `sqlRows.length + 1`. -/
theorem buildCitationMap_eq {α : Type} (sqlRows : List α) (semPayloads : List α) :
    buildCitationMap sqlRows (mkSemRowsFrom 1 semPayloads) =
      numberPending 1 (sqlPending 0 sqlRows) ++
        numberPending (1 + sqlRows.length) (semPending 0 (mkSemRowsFrom 1 semPayloads)) := by
  have hsqlKeys := sqlPending_map_key sqlRows 0
  have hsemKeys := semPending_mkSemRows_map_key semPayloads 0
  simp only [Nat.zero_add] at hsqlKeys hsemKeys
  have hnodupSql : ((sqlPending 0 sqlRows).map (fun e => e.1)).Nodup := by
    rw [hsqlKeys]
    exact (List.nodup_range' 1 sqlRows.length).map sqlCid_injective
  have hnodupSem : ((semPending 0 (mkSemRowsFrom 1 semPayloads)).map (fun e => e.1)).Nodup := by
    rw [hsemKeys]
    exact (List.nodup_range' 1 semPayloads.length).map semCid_injective
  have step1 := insertAll_fresh (sqlPending 0 sqlRows) [] 1 hnodupSql
    (by intro k _ x hx; simp at hx)
  have step2 := insertAll_fresh (semPending 0 (mkSemRowsFrom 1 semPayloads))
    (numberPending 1 (sqlPending 0 sqlRows)) (1 + sqlRows.length) hnodupSem
    (by
      intro k hk x hx
      rw [hsemKeys] at hk
      have hx2 : x.cid ∈ (numberPending 1 (sqlPending 0 sqlRows)).map (fun y => y.cid) :=
        List.mem_map_of_mem _ hx
      rw [numberPending_map_cid, hsqlKeys] at hx2
      obtain ⟨i, _, hi⟩ := List.mem_map.mp hx2
      obtain ⟨j, _, hj⟩ := List.mem_map.mp hk
      rw [← hi, ← hj]
      exact sqlCid_ne_semCid i j)
  simp only [buildCitationMap]
  rw [step1]
  simp only [List.nil_append, sqlPending_length]
  rw [step2]

/-- C5: the citation table numbers records 1, 2, ... in assignment order —
all structured rows first, in order, then all semantic rows, in order —
with pairwise distinct citation ids and every input record present
exactly once.  Semantic rows carry the `sem-i` ids `semantic_search`
assigns by rank. -/
theorem c5_citation_table_invariants {α : Type} (sqlRows : List α) (semPayloads : List α) :
    ((buildCitationMap sqlRows (mkSemRowsFrom 1 semPayloads)).map
        (fun x => x.citationNumber)) =
      List.range' 1 (sqlRows.length + semPayloads.length) ∧
    ((buildCitationMap sqlRows (mkSemRowsFrom 1 semPayloads)).map (fun x => x.cid)).Nodup ∧
    ((buildCitationMap sqlRows (mkSemRowsFrom 1 semPayloads)).map (fun x => x.rowData)) =
      sqlRows ++ semPayloads := by
  have hsqlKeys := sqlPending_map_key sqlRows 0
  have hsemKeys := semPending_mkSemRows_map_key semPayloads 0
  simp only [Nat.zero_add] at hsqlKeys hsemKeys
  rw [buildCitationMap_eq]
  refine ⟨?_, ?_, ?_⟩
  · rw [List.map_append, numberPending_map_number, numberPending_map_number,
      sqlPending_length, semPending_mkSemRows_length]
    have := List.range'_append 1 sqlRows.length semPayloads.length 1
    simp only [Nat.one_mul] at this
    rw [this]
    rw [Nat.add_comm semPayloads.length sqlRows.length]
  · rw [List.map_append, numberPending_map_cid, numberPending_map_cid,
      hsqlKeys, hsemKeys]
    rw [List.nodup_append]
    refine ⟨(List.nodup_range' 1 sqlRows.length).map sqlCid_injective,
      (List.nodup_range' 1 semPayloads.length).map semCid_injective, ?_⟩
    rw [List.disjoint_left]
    intro a ha hb
    obtain ⟨i, _, hi⟩ := List.mem_map.mp ha
    obtain ⟨j, _, hj⟩ := List.mem_map.mp hb
    exact sqlCid_ne_semCid i j (hi.trans hj.symm)
  · rw [List.map_append, numberPending_map_rowData, numberPending_map_rowData,
      sqlPending_map_payload, semPending_mkSemRows_map_payload]

/-! ### Lemmas: structured-row truncation and citation column -/

theorem truncateRows_eq_take {α : Type} (rows : List α) (c : Nat) :
    truncateRows rows c = rows.take c := by
  unfold truncateRows
  split
  · rfl
  · rename_i h
    exact (List.take_of_length_le (by omega)).symm

theorem take_min_length {α : Type} (rows : List α) (c : Nat) :
    rows.take c = rows.take (min rows.length c) := by
  rcases Nat.le_total rows.length c with h | h
  · rw [Nat.min_eq_left h, List.take_of_length_le h, List.take_of_length_le (Nat.le_refl _)]
  · rw [Nat.min_eq_right h]

theorem attachSqlCitations_map_snd {α : Type} : ∀ (l : List α) (i : Nat),
    (attachSqlCitations i l).map Prod.snd = l := by
  intro l
  induction l with
  | nil => intro i; simp [attachSqlCitations]
  | cons r rest ih => intro i; simp [attachSqlCitations, ih]

theorem attachSqlCitations_map_fst {α : Type} : ∀ (l : List α) (i : Nat),
    (attachSqlCitations i l).map Prod.fst = (List.range' (i + 1) l.length).map sqlCid := by
  intro l
  induction l with
  | nil => intro i; simp [attachSqlCitations]
  | cons r rest ih => intro i; simp [attachSqlCitations, List.range'_succ, ih]

theorem attachSqlCitations_length {α : Type} (l : List α) (i : Nat) :
    (attachSqlCitations i l).length = l.length := by
  have := congrArg List.length (attachSqlCitations_map_snd l i)
  simpa using this

/-- C10: with the request-scoped cap clamped to the global maximum
(`min(limit_results, MAX_SQL_RESULTS)`, default 6), the retained
structured result is exactly the first `min(n, c)` rows in original
order, and the i-th retained row carries citation id `sql-i`. -/
theorem c10_structured_truncation {α : Type} (rows : List α) (requested : Nat) :
    clampLimit requested = min requested 6 ∧
    (attachSqlCitations 0 (truncateRows rows (clampLimit requested))).map Prod.snd =
      rows.take (min rows.length (clampLimit requested)) ∧
    (attachSqlCitations 0 (truncateRows rows (clampLimit requested))).map Prod.fst =
      (List.range' 1 (min rows.length (clampLimit requested))).map sqlCid ∧
    (attachSqlCitations 0 (truncateRows rows (clampLimit requested))).length =
      min rows.length (clampLimit requested) := by
  have hk : min rows.length (clampLimit requested) ≤ rows.length := Nat.min_le_left _ _
  have htake : (rows.take (min rows.length (clampLimit requested))).length =
      min rows.length (clampLimit requested) := by
    rw [List.length_take]
    omega
  refine ⟨rfl, ?_, ?_, ?_⟩
  · rw [truncateRows_eq_take, take_min_length, attachSqlCitations_map_snd]
  · rw [truncateRows_eq_take, take_min_length, attachSqlCitations_map_fst, htake]
  · rw [truncateRows_eq_take, take_min_length, attachSqlCitations_length, htake]

/-! ### Claim theorems on the Safety Filter -/

/-- C2 (the code violates the claim): the Safety Filter REJECTS the
specification example query — `cosmetic_csv`, the only table the rest of
the repository uses, is missing from `ALLOWED_TABLES` — while the
DROP-suffixed variant is rejected as claimed. -/
theorem c2_spec_example_rejected :
    validateQuery specExampleQuery = some (.tableNotAllowed "cosmetic_csv") ∧
    validateQuery (specExampleQuery ++ dropSuffix) = some (.dangerousKeyword "DROP") :=
  ⟨rfl, rfl⟩

/-- C7 counterexample: the query of the claim is rejected, but with the
SELECT-only (read-only) reason produced by rule (b), not with a
mutating-keyword reason — the keyword scan is never reached. -/
theorem c7_counterexample_reason :
    validateQuery "UPDATE cosmetic_csv SET ..." = some RejectReason.notSelect ∧
    some RejectReason.notSelect ≠
      some (RejectReason.dangerousKeyword "UPDATE") :=
  ⟨rfl, by decide⟩

/-- C7 as amended: every query that does not begin with the read-only
keyword SELECT is rejected, and whenever the query is a non-empty string
the rejection reason is the SELECT-only (read-only) reason. -/
theorem c7_non_select_rejected (s : String)
    (h : startsWithSelectKw (pyStrip s.data) = false) :
    validateQuery s ≠ none ∧
      (s.data ≠ [] → validateQuery s = some RejectReason.notSelect) := by
  constructor
  · unfold validateQuery
    by_cases he : s.data.isEmpty
    · simp [he]
    · simp [he, h]
  · intro hne
    have he : s.data.isEmpty = false := by
      cases hb : s.data.isEmpty
      · rfl
      · exact absurd (List.isEmpty_iff.mp hb) hne
    unfold validateQuery
    simp [he, h]

theorem c7_non_select_rejected_witness :
    validateQuery "DELETE FROM cosmetics" = some RejectReason.notSelect :=
  (c7_non_select_rejected "DELETE FROM cosmetics" rfl).2 (by decide)

/-- C8 counterexample: a query whose JOIN references a table outside the
allow-list is ACCEPTED, because the table scan only captures names that
follow FROM; the JOIN-referenced table (computed here by the same capture
pattern applied to JOIN, following the words of the spec) is not in the
allow-list. -/
theorem c8_counterexample_join_table :
    validateQuery joinQuery = none ∧
    joinReferencedTables (pyStrip joinQuery.data) = ["secret_tbl"] ∧
    allowedTables.contains "secret_tbl" = false :=
  ⟨rfl, rfl, rfl⟩

/-- C8 as amended: only tables captured after FROM are checked. If any
FROM-referenced table is outside the allow-list the query is always
rejected, and when the earlier rules (non-empty, SELECT-start, no
dangerous keyword, no injection pattern) pass, the reason is the
disallowed-table reason naming the first such table. -/
theorem c8_from_table_allowlist (s : String) (t : String)
    (ht : (fromTables (pyStrip s.data)).find?
        (fun u => !(allowedTables.contains (lowerStr u))) = some t) :
    validateQuery s ≠ none ∧
    (s.data ≠ [] → startsWithSelectKw (pyStrip s.data) = true →
      findDangerous (upperChars (pyStrip s.data)) = none →
      findInjection (pyStrip s.data) = none →
      validateQuery s = some (RejectReason.tableNotAllowed t)) := by
  unfold validateQuery
  by_cases he : s.data.isEmpty
  · simp only [he, if_true]
    exact ⟨by simp, fun hne => absurd (List.isEmpty_iff.mp he) hne⟩
  · simp only [he, Bool.false_eq_true, if_false]
    by_cases hsel : startsWithSelectKw (pyStrip s.data)
    · simp only [hsel, Bool.not_true, Bool.false_eq_true, if_false]
      cases hd : findDangerous (upperChars (pyStrip s.data)) with
      | some kw => exact ⟨by simp, fun _ _ hd2 _ => nomatch hd2⟩
      | none =>
        cases hi : findInjection (pyStrip s.data) with
        | some p => exact ⟨by simp, fun _ _ _ hi2 => nomatch hi2⟩
        | none =>
          rw [ht]
          exact ⟨by simp, fun _ _ _ _ => rfl⟩
    · simp only [Bool.not_eq_true] at hsel
      simp only [hsel, Bool.not_false, if_true]
      exact ⟨by simp, fun _ hsel2 => nomatch hsel2⟩

theorem c8_from_table_allowlist_witness :
    validateQuery "SELECT a FROM evil_tbl" =
      some (RejectReason.tableNotAllowed "evil_tbl") :=
  (c8_from_table_allowlist "SELECT a FROM evil_tbl" "evil_tbl" rfl).2
    (by decide) rfl rfl rfl

/-! ### Claim theorems on the Intent Classifier -/

/-- C6 counterexample: a parseable classifier output whose `query_type`
value is outside the three enumerated values is passed through unchecked
by `intent_agent`. -/
theorem c6_counterexample_passthrough :
    (intentAgent "list products" (.parsed ⟨some "RANDOM", none, none⟩)).queryType
        = "RANDOM" ∧
    ("RANDOM" ≠ "STRUCTURED" ∧ "RANDOM" ≠ "SEMANTIC" ∧ "RANDOM" ≠ "COMBINED") :=
  ⟨rfl, by decide⟩

/-- C6 as amended: when the classifier output is unparseable the result
falls back to the keyword heuristic (how many / count / total / top →
STRUCTURED, else SEMANTIC), and when it parses without a `query_type`
field the defaulted value is likewise one of STRUCTURED or SEMANTIC; a
`query_type` present in parseable output is returned as-is, unvalidated. -/
theorem c6_query_type_fallback (q : String) (d : ParsedIntent)
    (hd : d.queryType = none) :
    ((intentAgent q .unparseable).queryType =
      (if containsAnyKeyword q exceptFallbackKeywords then "STRUCTURED"
       else "SEMANTIC")) ∧
    ((intentAgent q .unparseable).queryType = "STRUCTURED" ∨
      (intentAgent q .unparseable).queryType = "SEMANTIC") ∧
    ((intentAgent q (.parsed d)).queryType = "STRUCTURED" ∨
      (intentAgent q (.parsed d)).queryType = "SEMANTIC") ∧
    (∀ v, d.queryType = some v → (intentAgent q (.parsed d)).queryType = v) := by
  refine ⟨rfl, ?_, ?_, ?_⟩
  · simp only [intentAgent]
    split <;> simp
  · simp only [intentAgent, hd]
    split <;> simp
  · intro v hv
    rw [hv] at hd
    cases hd

theorem c6_query_type_fallback_witness :
    (intentAgent "how many products contain lead" ClassifierOutcome.unparseable).queryType
      = "STRUCTURED" := by
  rw [(c6_query_type_fallback "how many products contain lead" ⟨none, none, none⟩ rfl).1]
  rfl

/-! ### Claim theorems on the Answer Synthesizer and the Orchestrator -/

/-- C9: with both result sets empty the Answer Synthesizer returns the
fixed not-found message and an empty citation list, and the
text-generation call is not issued (whatever its outcome would be). -/
theorem c9_empty_short_circuit {α : Type} (genOut : Except String String) :
    responseGenerator (α := α) genOut [] [] =
      .ok (notFoundMessage, [], false) := rfl

/-- C1 (the code violates the claim): `sql_node` hands the generated
query to `cursor.execute` without ever calling the Safety Filter; here a
generated query that `validate_query` would reject (its table is not in
the allow-list) is executed anyway. -/
theorem c1_unvalidated_query_executed :
    validateQuery generatedCsvQuery =
      some (.tableNotAllowed "cosmetic_csv") ∧
    (runPipeline oraclesStructuredGen "how many products" 6).1.executed =
      [generatedCsvQuery] :=
  ⟨rfl, rfl⟩

/-- Helper: the response node cannot fail while the text-generation call
succeeds (the only raise inside it is the propagated generation failure). -/
theorem responseGenerator_ok {α : Type} (sqlRows : List α)
    (semRows : List (Option String × α)) (t : String) :
    ∃ res, responseGenerator (Except.ok t) sqlRows semRows = .ok res := by
  unfold responseGenerator
  dsimp only
  split
  · exact ⟨_, rfl⟩
  · exact ⟨_, rfl⟩

theorem responseNode_ok {α β : Type} (or : Oracles α β) (st : AgentState α β)
    (t : String) (hg : or.generate = .ok t) :
    ∃ st2, responseNode or st = .ok st2 := by
  unfold responseNode
  dsimp only
  rw [hg]
  obtain ⟨res, hres⟩ := responseGenerator_ok (α := α ⊕ β)
    (match st.sqlResults with
     | some rs => if rs.length > 0 then rs.map Sum.inl else []
     | none => [])
    (match st.semResults with
     | some rs => if rs.length > 0 then rs.map (fun p => (p.1, Sum.inr p.2)) else []
     | none => []) t
  obtain ⟨ans, cits, b⟩ := res
  rw [hres]
  exact ⟨_, rfl⟩

/-- C3: which retrievers run is decided purely by the classified
query_type — SEMANTIC or unrecognized runs only semantic retrieval,
STRUCTURED only structured retrieval, COMBINED both with semantic
strictly after structured. -/
theorem c3_routing {α β : Type} (or : Oracles α β) (q : String) (lim : Nat) :
    ((intentAgent q or.classifierOutcome).queryType ≠ "STRUCTURED" →
      (intentAgent q or.classifierOutcome).queryType ≠ "COMBINED" →
      (runPipeline or q lim).1.visited = ["intent", "semantic", "response"]) ∧
    ((intentAgent q or.classifierOutcome).queryType = "STRUCTURED" →
      (runPipeline or q lim).1.visited = ["intent", "sql", "response"]) ∧
    ((intentAgent q or.classifierOutcome).queryType = "COMBINED" →
      (runPipeline or q lim).1.visited =
        ["intent", "sql", "semantic", "response"]) := by
  refine ⟨?_, ?_, ?_⟩
  · intro h1 h2
    have hs : shouldUseSql (intentAgent q or.classifierOutcome).queryType
        = "semantic" := by
      simp [shouldUseSql, h1, h2]
    simp [runPipeline, intentNode, initState, hs]
  · intro h
    have hs : shouldUseSql (intentAgent q or.classifierOutcome).queryType
        = "sql" := by simp [shouldUseSql, h]
    have hr : shouldUseSemantic (intentAgent q or.classifierOutcome).queryType
        = "response" := by simp [shouldUseSemantic, h]
    simp [runPipeline, intentNode, initState, hs, hr]
  · intro h
    have hs : shouldUseSql (intentAgent q or.classifierOutcome).queryType
        = "sql" := by simp [shouldUseSql, h]
    have hr : shouldUseSemantic (intentAgent q or.classifierOutcome).queryType
        = "semantic" := by simp [shouldUseSemantic, h]
    simp [runPipeline, intentNode, initState, hs, hr]

theorem c3_routing_witness :
    (runPipeline oraclesCombinedFail "q" 6).1.visited =
      ["intent", "sql", "semantic", "response"] :=
  (c3_routing oraclesCombinedFail "q" 6).2.2 rfl

/-- C4 counterexample: a failure raised inside answer synthesis is NOT
caught at the orchestrator boundary — with one semantic result retrieved
and a failing generation call, the whole run yields an error instead of a
Response. -/
theorem c4_counterexample_synthesis_failure :
    (runPipeline oraclesSynthesisFailure "q" 6).2 = Except.error "boom" := rfl

/-- C4 as amended: failures inside structured or semantic retrieval are
caught, recorded as diagnostic messages, and replaced by empty results,
and the run still produces a well-formed final state whenever the
synthesis text-generation call succeeds; in particular a COMBINED request
whose two retrieval stages both fail still reaches synthesis and returns
the not-found answer with both diagnostics recorded. -/
theorem c4_retrieval_failures_contained {α β : Type} (or : Oracles α β)
    (q : String) (lim : Nat) (t : String) (hg : or.generate = .ok t) :
    (∃ st, (runPipeline or q lim).2 = .ok st) ∧
    (∀ qs e1 e2,
      (intentAgent q or.classifierOutcome).queryType = "COMBINED" →
      or.genSql = .ok qs → or.execSql qs = .error e1 →
      or.semanticSearch (min lim MAX_SEMANTIC_RESULTS) = .error e2 →
      ∃ st, (runPipeline or q lim).2 = .ok st ∧
        st.sqlResults = some [] ∧ st.semResults = some [] ∧
        ("SQL error: " ++ e1) ∈ st.messages ∧
        ("Semantic error: " ++ e2) ∈ st.messages ∧
        st.finalResponse = notFoundMessage) := by
  constructor
  · simp only [runPipeline]
    split
    · split
      · exact responseNode_ok or _ t hg
      · exact responseNode_ok or _ t hg
    · exact responseNode_ok or _ t hg
  · intro qs e1 e2 hqt hgen hexec hsem
    have hs : shouldUseSql (intentAgent q or.classifierOutcome).queryType
        = "sql" := by simp [shouldUseSql, hqt]
    have hr : shouldUseSemantic (intentAgent q or.classifierOutcome).queryType
        = "semantic" := by simp [shouldUseSemantic, hqt]
    simp only [runPipeline, intentNode, initState, hs, hr, sqlNode, hgen, hexec,
      semanticNode, hsem, responseNode, responseGenerator]
    simp only [List.length_nil, beq_self_eq_true, if_true, gt_iff_lt, Nat.lt_irrefl,
      if_false, List.nil_append]
    have hbm : buildCitationMap (α := α ⊕ β) [] [] = [] := rfl
    simp only [hbm, List.length_nil, beq_self_eq_true, if_true]
    exact ⟨_, rfl, rfl, rfl, by simp, by simp, rfl⟩

theorem c4_retrieval_failures_contained_witness :
    ∃ st, (runPipeline oraclesCombinedFail "q" 6).2 = Except.ok st ∧
      st.sqlResults = some [] ∧ st.semResults = some [] ∧
      ("SQL error: " ++ "db down") ∈ st.messages ∧
      ("Semantic error: " ++ "index down") ∈ st.messages ∧
      st.finalResponse = notFoundMessage :=
  (c4_retrieval_failures_contained oraclesCombinedFail "q" 6 "ans" rfl).2
    "SELECT 1" "db down" "index down" rfl rfl rfl rfl

end CosmeticsPipeline
